import Mathlib

/-!
Shallow embedding of the LocalMind AI backend (`src/main.py`).

The repository is a FastAPI service with a single non-trivial endpoint,
`POST /analyze`.  We embed the request handler as a pure Lean function,
parameterised over the two external collaborators:

* `decode` models `PIL.Image.open` on the uploaded image bytes
  (`some img` when the bytes parse as a raster image, `none` when
  `Image.open` raises);
* `generate` models `model.generate_content(inputs)` followed by the
  `response.text` access (`Except.error msg` when that call raises, with
  `msg` the stringified exception).

Python truthiness of optional strings (`not text`, `location or ...`,
`audio.content_type or ...`) is modelled by `pyFalsyStr` / `pyOrStr`:
both `None` and the empty string are falsy.  An `UploadFile` object is
truthy whenever present, so `if image:` / `if audio:` are modelled by
`Option.isSome` on the file fields.

The handler body is wrapped in `try ... except Exception as e:
raise HTTPException(status_code=500, detail=str(e))` (main.py:57,127-129).
Since FastAPI's `HTTPException` derives from `Exception`, the inner
`HTTPException(400, ...)` / `HTTPException(500, ...)` raises are caught by
that blanket handler and re-raised with status 500 and detail
`str(e) = f"{status_code}: {detail}"` (Starlette's `HTTPException.__str__`).
`analyzeInner` models the `try` body; `analyze` models the whole handler
including the blanket `except`.
-/

/-- Byte sequences (uploaded file contents) are modelled as lists of
naturals, one per byte. -/
abbrev Bytes := List Nat

/-- Model of a decoded PIL image handle as returned by
`Image.open(io.BytesIO(content))`; the payload is opaque to the handler,
which only forwards it to the model call. -/
structure DecodedImage where
  data : Bytes
deriving Repr, DecidableEq

/-- Model of a FastAPI `UploadFile`: the bytes obtained from
`await file.read()` and the declared `content_type`. -/
structure UploadedFile where
  bytes : Bytes
  content_type : Option String
deriving Repr, DecidableEq

/-- The parsed multipart form of a `POST /analyze` request
(main.py:46-51). `language_code` defaults to `"en"` upstream in FastAPI. -/
structure AnalyzeRequest where
  text : Option String
  image : Option UploadedFile
  audio : Option UploadedFile
  location : Option String
  language_code : String
deriving Repr, DecidableEq

/-- One element of the heterogeneous `inputs` list handed to
`model.generate_content`: the formatted prompt string, a decoded image, or
an audio blob dict `{"mime_type": ..., "data": ...}` (main.py:64-113). -/
inductive PromptPart where
  | text (s : String)
  | image (img : DecodedImage)
  | audio (mime_type : String) (data : Bytes)
deriving Repr, DecidableEq

/-- The JSON body returned on success (main.py:122-125). -/
structure ResponseBody where
  response : String
  location_context : Option String
deriving Repr, DecidableEq

/-- An exception escaping the `try` body: either a raised
`HTTPException(status, detail)` or any other exception carrying its
stringified message (here: whatever `model.generate_content` /
`response.text` raised). -/
inductive InnerError where
  | httpExc (status : Nat) (detail : String)
  | other (msg : String)
deriving Repr, DecidableEq

/-- Python truthiness for an optional string: `None` and `""` are falsy. -/
def pyFalsyStr : Option String → Bool
  | none => true
  | some s => s == ""

/-- Python `x or d` for an optional string `x`: the default is taken
exactly when `x` is `None` or empty. -/
def pyOrStr : Option String → String → String
  | none, d => d
  | some s, d => if s = "" then d else s

/-- Segment of the `base_prompt` template (main.py:67-84) before the
`{location}` placeholder, byte-for-byte. -/
def promptSeg1 : String :=
  "\n        You are LocalMind AI, a hyperlocal assistant for India.\n        Your goal is to provide real-time, actionable intelligence based on the user\x27s location and input.\n        \n        CONTEXT:\n        - Location: "

/-- Segment of the `base_prompt` template between `{location}` and
`{language_code}`. -/
def promptSeg2 : String :=
  "\n        - User\x27s Language Preference: "

/-- Segment of the `base_prompt` template between `{language_code}` and
`{user_text}`. -/
def promptSeg3 : String :=
  " (Respond in this language OR English if unsure, but prefer mixed/colloquial if appropriate like Hinglish).\n        \n        INSTRUCTIONS:\n        1. Analyze the input (image, audio, text).\n        2. Identify specific local details (shops, signs, food, transport, safety).\n        3. Provide estimated prices, safety tips, or transport options if relevant.\n        4. Be CONCISE and ACTIONABLE. No long wiki-style answers.\n        5. If the user asks about a price (e.g., auto rickshaw), give a realistic estimate for that Indian city.\n        \n        USER INPUT:\n        "

/-- Segment of the `base_prompt` template after `{user_text}`. -/
def promptSeg4 : String :=
  "\n        "

/-- The `base_prompt.format(...)` call (main.py:86-90): template
substitution with `location or "Unknown India Location"`, `language_code`
verbatim, and `text or "Analyze my input."`. -/
def buildPrompt (location : Option String) (language_code : String)
    (text : Option String) : String :=
  promptSeg1 ++ pyOrStr location "Unknown India Location" ++ promptSeg2 ++
    language_code ++ promptSeg3 ++ pyOrStr text "Analyze my input." ++ promptSeg4

/-- The `str(e)` conversion applied by the blanket `except` handler
(main.py:129): Starlette renders `HTTPException` as
`f"{status_code}: {detail}"`, any other exception as its message. -/
def strOfInnerError : InnerError → String
  | .httpExc status detail => toString status ++ ": " ++ detail
  | .other msg => msg

/-- The body of the `try` block of `analyze` (main.py:58-125): credential
check, modality check, prompt formatting, image decoding, audio wrapping,
model invocation, and the success envelope. -/
def analyzeInner (api_key : Option String) (decode : Bytes → Option DecodedImage)
    (generate : List PromptPart → Except String String)
    (req : AnalyzeRequest) : Except InnerError ResponseBody :=
  if pyFalsyStr api_key then
    .error (.httpExc 500 "Server misconfiguration: API Key missing.")
  else if pyFalsyStr req.text && req.image.isNone && req.audio.isNone then
    .error (.httpExc 400 "Either text, image, or audio must be provided.")
  else
    let formatted_prompt := buildPrompt req.location req.language_code req.text
    let inputs0 : List PromptPart := [.text formatted_prompt]
    let afterImage : Except InnerError (List PromptPart) :=
      match req.image with
      | none => .ok inputs0
      | some file =>
        match decode file.bytes with
        | some img => .ok (inputs0 ++ [.image img])
        | none => .error (.httpExc 400 "Invalid image file.")
    match afterImage with
    | .error e => .error e
    | .ok inputs1 =>
      let inputs2 : List PromptPart :=
        match req.audio with
        | none => inputs1
        | some file => inputs1 ++ [.audio (pyOrStr file.content_type "audio/mp4") file.bytes]
      match generate inputs2 with
      | .ok response_text => .ok { response := response_text, location_context := req.location }
      | .error msg => .error (.other msg)

/-- The observable outcome of a `POST /analyze` call: a 200 JSON success
body, or an `HTTPException` rendered by FastAPI as status plus
`{"detail": ...}`. -/
inductive AnalyzeOutcome where
  | ok (body : ResponseBody)
  | err (status : Nat) (detail : String)
deriving Repr, DecidableEq

/-- The whole `analyze` handler (main.py:45-129): the `try` body plus the
blanket `except Exception` that re-raises every escaping exception —
including the inner `HTTPException`s — as `HTTPException(500, str(e))`. -/
def analyze (api_key : Option String) (decode : Bytes → Option DecodedImage)
    (generate : List PromptPart → Except String String)
    (req : AnalyzeRequest) : AnalyzeOutcome :=
  match analyzeInner api_key decode generate req with
  | .ok body => .ok body
  | .error e => .err 500 (strOfInnerError e)

/-- HTTP status of an outcome: `JSONResponse` defaults to 200, an
`HTTPException` carries its status. -/
def statusOf : AnalyzeOutcome → Nat
  | .ok _ => 200
  | .err status _ => status

/-- The `detail` field of the error body, when the outcome is an error. -/
def detailOf : AnalyzeOutcome → Option String
  | .ok _ => none
  | .err _ detail => some detail

/-- The ordered `inputs` list (the `PromptPayload`) as assembled by the
`try` body once the credential check has passed: `none` when validation or
image decoding fails before the model call, `some parts` otherwise
(main.py:61-113). -/
def assemblePayload (decode : Bytes → Option DecodedImage)
    (req : AnalyzeRequest) : Option (List PromptPart) :=
  if pyFalsyStr req.text && req.image.isNone && req.audio.isNone then none
  else
    let inputs0 : List PromptPart :=
      [.text (buildPrompt req.location req.language_code req.text)]
    let afterImage : Option (List PromptPart) :=
      match req.image with
      | none => some inputs0
      | some file =>
        match decode file.bytes with
        | some img => some (inputs0 ++ [.image img])
        | none => none
    match afterImage with
    | none => none
    | some inputs1 =>
      match req.audio with
      | none => some inputs1
      | some file =>
        some (inputs1 ++ [.audio (pyOrStr file.content_type "audio/mp4") file.bytes])

/-- Substring-as-contiguous-run: `pat` occurs verbatim inside `s`. -/
def containsSub (s pat : String) : Prop := ∃ a b, s = a ++ pat ++ b

/-- Decoder oracle for bytes that are not a valid image: `PIL.Image.open`
raises on them, modelled as `none`. -/
def decodeRejectAll : Bytes → Option DecodedImage := fun _ => none

/-- Decoder oracle for bytes that decode fine: `PIL.Image.open` returns a
handle over the bytes. -/
def decodeAcceptAll : Bytes → Option DecodedImage := fun b => some ⟨b⟩

/-- Model stub answering every prompt with a fixed text (end-to-end
scenario 1 of the spec). -/
def generateStub : List PromptPart → Except String String := fun _ => .ok "New Delhi"

/-- Model stub raising on every prompt. -/
def generateRaise : List PromptPart → Except String String := fun _ => .error "boom"

/-- Request with no fields at all (end-to-end scenario 2 of the spec). -/
def requestEmpty : AnalyzeRequest := ⟨none, none, none, none, "en"⟩

/-- Request whose image field carries the ASCII bytes of "not an image"
(end-to-end scenario 4 of the spec). -/
def requestBadImage : AnalyzeRequest :=
  ⟨none, some ⟨[110, 111, 116, 32, 97, 110, 32, 105, 109, 97, 103, 101], some "text/plain"⟩,
    none, none, "en"⟩

/-- Text-only request of end-to-end scenario 1 of the spec. -/
def requestTextOnly : AnalyzeRequest :=
  ⟨some "What is the capital of India?", none, none, some "New Delhi", "en"⟩

/-- Audio upload with no declared content type. -/
def audioFileNoType : UploadedFile := ⟨[0, 1], none⟩

/-- Request supplying only an audio file with no declared content type. -/
def requestAudioOnly : AnalyzeRequest := ⟨none, none, some audioFileNoType, none, "en"⟩

/-- The payload assembled for `requestAudioOnly` under `decodeAcceptAll`. -/
def audioOnlyParts : List PromptPart :=
  [.text (buildPrompt none "en" none), .audio "audio/mp4" [0, 1]]

/-- Request supplying all three modalities, the audio one with no
declared content type. -/
def requestFull : AnalyzeRequest :=
  ⟨some "hi", some ⟨[137, 80, 78, 71], some "image/png"⟩, some audioFileNoType,
    some "New Delhi", "en"⟩

/-- The payload assembled for `requestFull` under `decodeAcceptAll`. -/
def fullParts : List PromptPart :=
  [.text (buildPrompt (some "New Delhi") "en" (some "hi")),
    .image ⟨[137, 80, 78, 71]⟩, .audio "audio/mp4" [0, 1]]

/-- String concatenation is associative. -/
theorem strAppendAssoc (a b c : String) : a ++ b ++ c = a ++ (b ++ c) :=
  String.append_assoc a b c

/-- Every string contains the empty string. -/
theorem containsSub_empty (s : String) : containsSub s "" :=
  ⟨"", s, by simp [String.empty_append]⟩

/-- When the credential check fails, the whole handler returns the
rewrapped 500 error. -/
theorem analyze_eq_of_no_key (api_key : Option String)
    (decode : Bytes → Option DecodedImage)
    (generate : List PromptPart → Except String String) (req : AnalyzeRequest)
    (hkey : pyFalsyStr api_key = true) :
    analyze api_key decode generate req =
      .err 500 "500: Server misconfiguration: API Key missing." := by
  unfold analyze analyzeInner
  rw [hkey]
  rfl

/-- C3: when the process-wide API credential is absent (or empty), every
`POST /analyze` response has status 500 and a detail string containing the
server-misconfiguration phrase. (The blanket `except` at main.py:127-129
rewraps the inner `HTTPException(500, "Server misconfiguration: API Key
missing.")`, so the transported detail is `"500: Server misconfiguration:
API Key missing."`, which still names the misconfiguration.) -/
theorem analyze_missing_credential_500 (api_key : Option String)
    (decode : Bytes → Option DecodedImage)
    (generate : List PromptPart → Except String String) (req : AnalyzeRequest)
    (hkey : pyFalsyStr api_key = true) :
    statusOf (analyze api_key decode generate req) = 500 ∧
    ∃ d, detailOf (analyze api_key decode generate req) = some d ∧
      containsSub d "Server misconfiguration" := by
  have hA := analyze_eq_of_no_key api_key decode generate req hkey
  refine ⟨by rw [hA]; rfl, "500: Server misconfiguration: API Key missing.",
    by rw [hA]; rfl, "500: ", ": API Key missing.", by decide⟩

/-- Witness for `analyze_missing_credential_500`: concrete text-only
request with the credential absent. -/
theorem analyze_missing_credential_500_witness :
    statusOf (analyze none decodeRejectAll generateStub requestTextOnly) = 500 ∧
    ∃ d, detailOf (analyze none decodeRejectAll generateStub requestTextOnly) = some d ∧
      containsSub d "Server misconfiguration" :=
  analyze_missing_credential_500 none decodeRejectAll generateStub requestTextOnly rfl

/-- C10: the credential check at main.py:58 precedes the modality check at
main.py:61, so with the credential absent even an all-empty request gets
status 500, never 400. -/
theorem credential_check_precedes_validation (api_key : Option String)
    (decode : Bytes → Option DecodedImage)
    (generate : List PromptPart → Except String String) (req : AnalyzeRequest)
    (hkey : pyFalsyStr api_key = true) (ht : req.text = none)
    (hi : req.image = none) (ha : req.audio = none) :
    statusOf (analyze api_key decode generate req) = 500 ∧
    statusOf (analyze api_key decode generate req) ≠ 400 := by
  have hA := analyze_eq_of_no_key api_key decode generate req hkey
  rw [hA]
  exact ⟨rfl, by decide⟩

/-- Witness for `credential_check_precedes_validation`: credential and all
three modalities absent. -/
theorem credential_check_precedes_validation_witness :
    statusOf (analyze none decodeRejectAll generateStub requestEmpty) = 500 ∧
    statusOf (analyze none decodeRejectAll generateStub requestEmpty) ≠ 400 :=
  credential_check_precedes_validation none decodeRejectAll generateStub requestEmpty
    rfl rfl rfl rfl

/-- C1 (divergence): the spec claims status 400 when text, image and audio
are all absent, but the raised `HTTPException(400, ...)` of main.py:62 is
caught by the blanket `except Exception` of main.py:127-129 and re-raised
as status 500 carrying `str(e)`. Evaluating the handler at the failing
input shows the 500. -/
theorem analyze_missing_input_yields_500 :
    analyze (some "key") decodeRejectAll generateStub requestEmpty =
      .err 500 "400: Either text, image, or audio must be provided." ∧
    statusOf (analyze (some "key") decodeRejectAll generateStub requestEmpty) ≠ 400 :=
  ⟨rfl, by decide⟩

/-- C2 (divergence): the spec claims status 400 for an undecodable image,
but the raised `HTTPException(400, "Invalid image file.")` of main.py:102
is caught by the blanket `except Exception` of main.py:127-129 and
re-raised as status 500 carrying `str(e)`. Evaluating the handler at the
failing input (image bytes "not an image") shows the 500. -/
theorem analyze_invalid_image_yields_500 :
    analyze (some "key") decodeRejectAll generateStub requestBadImage =
      .err 500 "400: Invalid image file." ∧
    statusOf (analyze (some "key") decodeRejectAll generateStub requestBadImage) ≠ 400 :=
  ⟨rfl, by decide⟩

/-- C7: prompt assembly is a pure function of its three inputs: equal
inputs give byte-identical output, with no dependence on hidden state. -/
theorem buildPrompt_deterministic (loc₁ loc₂ : Option String) (lc₁ lc₂ : String)
    (txt₁ txt₂ : Option String) (hl : loc₁ = loc₂) (hc : lc₁ = lc₂)
    (ht : txt₁ = txt₂) :
    buildPrompt loc₁ lc₁ txt₁ = buildPrompt loc₂ lc₂ txt₂ := by
  subst hl; subst hc; subst ht; rfl

/-- Witness for `buildPrompt_deterministic` at concrete inputs. -/
theorem buildPrompt_deterministic_witness :
    buildPrompt (some "New Delhi") "en" (some "hi") =
      buildPrompt (some "New Delhi") "en" (some "hi") :=
  buildPrompt_deterministic (some "New Delhi") (some "New Delhi") "en" "en"
    (some "hi") (some "hi") rfl rfl rfl

/-- When the credential check passes and the payload assembles to
`parts`, the `try` body reduces to the model invocation on `parts`. -/
theorem analyzeInner_eq_of_assemble (api_key : Option String)
    (decode : Bytes → Option DecodedImage)
    (generate : List PromptPart → Except String String) (req : AnalyzeRequest)
    (parts : List PromptPart) (hkey : pyFalsyStr api_key = false)
    (hp : assemblePayload decode req = some parts) :
    analyzeInner api_key decode generate req =
      match generate parts with
      | .ok t => .ok { response := t, location_context := req.location }
      | .error msg => .error (.other msg) := by
  rcases req with ⟨text, image, audio, location, language_code⟩
  cases image with
  | none =>
    cases audio with
    | none =>
      by_cases htxt : pyFalsyStr text = true
      · simp [assemblePayload, htxt] at hp
      · simp only [Bool.not_eq_true] at htxt
        simp [assemblePayload, htxt] at hp
        subst hp
        simp [analyzeInner, hkey, htxt]
    | some afile =>
      simp [assemblePayload] at hp
      subst hp
      simp [analyzeInner, hkey]
  | some ifile =>
    cases hdec : decode ifile.bytes with
    | none => simp [assemblePayload, hdec] at hp
    | some img =>
      cases audio with
      | none =>
        simp [assemblePayload, hdec] at hp
        subst hp
        simp [analyzeInner, hkey, hdec]
      | some afile =>
        simp [assemblePayload, hdec] at hp
        subst hp
        simp [analyzeInner, hkey, hdec]

/-- When the credential check passes but the payload fails to assemble,
the `try` body ends in a raised exception (missing input or invalid
image), never a success body. -/
theorem analyzeInner_error_of_assemble_none (api_key : Option String)
    (decode : Bytes → Option DecodedImage)
    (generate : List PromptPart → Except String String) (req : AnalyzeRequest)
    (hkey : pyFalsyStr api_key = false)
    (hp : assemblePayload decode req = none) :
    ∃ e, analyzeInner api_key decode generate req = .error e := by
  rcases req with ⟨text, image, audio, location, language_code⟩
  cases image with
  | none =>
    cases audio with
    | none =>
      by_cases htxt : pyFalsyStr text = true
      · exact ⟨.httpExc 400 "Either text, image, or audio must be provided.",
          by simp [analyzeInner, hkey, htxt]⟩
      · simp only [Bool.not_eq_true] at htxt
        simp [assemblePayload, htxt] at hp
    | some afile => simp [assemblePayload] at hp
  | some ifile =>
    cases hdec : decode ifile.bytes with
    | none =>
      exact ⟨.httpExc 400 "Invalid image file.",
        by simp [analyzeInner, hkey, hdec]⟩
    | some img =>
      cases audio <;> simp [assemblePayload, hdec] at hp

/-- Inversion of a successful handler run: the credential was present,
the payload assembled, the model call succeeded with exactly the returned
text, and the location is echoed verbatim. -/
theorem analyze_ok_inv (api_key : Option String)
    (decode : Bytes → Option DecodedImage)
    (generate : List PromptPart → Except String String) (req : AnalyzeRequest)
    (body : ResponseBody) (h : analyze api_key decode generate req = .ok body) :
    pyFalsyStr api_key = false ∧
    ∃ parts, assemblePayload decode req = some parts ∧
      generate parts = .ok body.response ∧ body.location_context = req.location := by
  have hInner : analyzeInner api_key decode generate req = .ok body := by
    unfold analyze at h
    cases hI : analyzeInner api_key decode generate req with
    | ok b => rw [hI] at h; simp at h; rw [h]
    | error e => rw [hI] at h; simp at h
  by_cases hkey : pyFalsyStr api_key = true
  · simp [analyzeInner, hkey] at hInner
  · simp only [Bool.not_eq_true] at hkey
    refine ⟨hkey, ?_⟩
    cases hp : assemblePayload decode req with
    | none =>
      obtain ⟨e, he⟩ := analyzeInner_error_of_assemble_none api_key decode generate req hkey hp
      rw [he] at hInner
      simp at hInner
    | some parts =>
      have heq := analyzeInner_eq_of_assemble api_key decode generate req parts hkey hp
      rw [heq] at hInner
      cases hgen : generate parts with
      | ok t =>
        rw [hgen] at hInner
        simp at hInner
        subst hInner
        exact ⟨parts, rfl, by simp [hgen], rfl⟩
      | error msg =>
        rw [hgen] at hInner
        simp at hInner

/-- C4: errors of the external model call are opaque: when
`model.generate_content` (or the `response.text` access) raises, the
response has status 500 with the stringified error as its detail, and a
success body carries exactly the model's full text (never a partial
result). The handler invokes the model once on the assembled payload, so
no retry exists in the control flow. -/
theorem model_error_wrapped (api_key : Option String)
    (decode : Bytes → Option DecodedImage)
    (generate : List PromptPart → Except String String) (req : AnalyzeRequest) :
    (∀ parts msg, pyFalsyStr api_key = false →
      assemblePayload decode req = some parts → generate parts = .error msg →
      analyze api_key decode generate req = .err 500 msg) ∧
    (∀ body, analyze api_key decode generate req = .ok body →
      ∃ parts, assemblePayload decode req = some parts ∧
        generate parts = .ok body.response) := by
  constructor
  · intro parts msg hkey hassem hgen
    unfold analyze
    rw [analyzeInner_eq_of_assemble api_key decode generate req parts hkey hassem, hgen]
    rfl
  · intro body h
    obtain ⟨-, parts, hassem, hgen, -⟩ := analyze_ok_inv api_key decode generate req body h
    exact ⟨parts, hassem, hgen⟩

/-- Witness for `model_error_wrapped`: a raising model stub on a concrete
text-only request yields status 500 with the raw error message. -/
theorem model_error_wrapped_witness :
    analyze (some "key") decodeRejectAll generateRaise requestTextOnly =
      .err 500 "boom" :=
  (model_error_wrapped (some "key") decodeRejectAll generateRaise requestTextOnly).1
    [.text (buildPrompt (some "New Delhi") "en" (some "What is the capital of India?"))]
    "boom" rfl rfl rfl

/-- C8: every successful request returns status 200 with body exactly
`response = the model's text` and `location_context = the input location`
(echoed verbatim, `none` when absent); the prompt's location fallback is
never substituted into `location_context`, since the latter always equals
`req.location`. -/
theorem analyze_success_envelope (api_key : Option String)
    (decode : Bytes → Option DecodedImage)
    (generate : List PromptPart → Except String String) (req : AnalyzeRequest)
    (body : ResponseBody) (h : analyze api_key decode generate req = .ok body) :
    statusOf (analyze api_key decode generate req) = 200 ∧
    body.location_context = req.location ∧
    ∃ parts, assemblePayload decode req = some parts ∧
      generate parts = .ok body.response := by
  obtain ⟨-, parts, hassem, hgen, hloc⟩ := analyze_ok_inv api_key decode generate req body h
  exact ⟨by rw [h]; rfl, hloc, parts, hassem, hgen⟩

/-- Witness for `analyze_success_envelope`: end-to-end scenario 1 of the
spec, with the stub model answering "New Delhi". -/
theorem analyze_success_envelope_witness :
    statusOf (analyze (some "key") decodeRejectAll generateStub requestTextOnly) = 200 ∧
    (⟨"New Delhi", some "New Delhi"⟩ : ResponseBody).location_context =
      requestTextOnly.location ∧
    ∃ parts, assemblePayload decodeRejectAll requestTextOnly = some parts ∧
      generateStub parts = .ok (⟨"New Delhi", some "New Delhi"⟩ : ResponseBody).response :=
  analyze_success_envelope (some "key") decodeRejectAll generateStub requestTextOnly
    ⟨"New Delhi", some "New Delhi"⟩ rfl

/-- C5: every successfully assembled payload starts with the formatted
text block, followed by the decoded image when an image was supplied,
followed by the audio blob when audio was supplied, and nothing else, so
it has between one and three parts. -/
theorem payload_parts_ordered (decode : Bytes → Option DecodedImage)
    (req : AnalyzeRequest) (parts : List PromptPart)
    (h : assemblePayload decode req = some parts) :
    ∃ imgParts audParts,
      parts = .text (buildPrompt req.location req.language_code req.text) ::
        (imgParts ++ audParts) ∧
      (req.image = none → imgParts = []) ∧
      (∀ f, req.image = some f → ∃ img, decode f.bytes = some img ∧
        imgParts = [.image img]) ∧
      (req.audio = none → audParts = []) ∧
      (∀ f, req.audio = some f →
        audParts = [.audio (pyOrStr f.content_type "audio/mp4") f.bytes]) ∧
      1 ≤ parts.length ∧ parts.length ≤ 3 := by
  rcases req with ⟨text, image, audio, location, language_code⟩
  cases image with
  | none =>
    cases audio with
    | none =>
      by_cases htxt : pyFalsyStr text = true
      · simp [assemblePayload, htxt] at h
      · simp only [Bool.not_eq_true] at htxt
        simp [assemblePayload, htxt] at h
        subst h
        refine ⟨[], [], by simp, fun _ => rfl, ?_, fun _ => rfl, ?_, by simp, by simp⟩
        · intro f hf; cases hf
        · intro f hf; cases hf
    | some afile =>
      simp [assemblePayload] at h
      subst h
      refine ⟨[], [.audio (pyOrStr afile.content_type "audio/mp4") afile.bytes],
        by simp, fun _ => rfl, ?_, ?_, ?_, by simp, by simp⟩
      · intro f hf; cases hf
      · intro hf; cases hf
      · intro f hf; injection hf with hf; subst hf; rfl
  | some ifile =>
    cases hdec : decode ifile.bytes with
    | none => simp [assemblePayload, hdec] at h
    | some img =>
      cases audio with
      | none =>
        simp [assemblePayload, hdec] at h
        subst h
        refine ⟨[.image img], [], by simp, ?_, ?_, fun _ => rfl, ?_, by simp, by simp⟩
        · intro hf; cases hf
        · intro f hf; injection hf with hf; subst hf; exact ⟨img, hdec, rfl⟩
        · intro f hf; cases hf
      | some afile =>
        simp [assemblePayload, hdec] at h
        subst h
        refine ⟨[.image img],
          [.audio (pyOrStr afile.content_type "audio/mp4") afile.bytes],
          by simp, ?_, ?_, ?_, ?_, by simp, by simp⟩
        · intro hf; cases hf
        · intro f hf; injection hf with hf; subst hf; exact ⟨img, hdec, rfl⟩
        · intro hf; cases hf
        · intro f hf; injection hf with hf; subst hf; rfl

/-- Witness for `payload_parts_ordered`: request with all three
modalities, decoder accepting the image bytes. -/
theorem payload_parts_ordered_witness :
    ∃ imgParts audParts,
      fullParts = .text (buildPrompt requestFull.location requestFull.language_code
        requestFull.text) :: (imgParts ++ audParts) ∧
      (requestFull.image = none → imgParts = []) ∧
      (∀ f, requestFull.image = some f → ∃ img, decodeAcceptAll f.bytes = some img ∧
        imgParts = [.image img]) ∧
      (requestFull.audio = none → audParts = []) ∧
      (∀ f, requestFull.audio = some f →
        audParts = [.audio (pyOrStr f.content_type "audio/mp4") f.bytes]) ∧
      1 ≤ fullParts.length ∧ fullParts.length ≤ 3 :=
  payload_parts_ordered decodeAcceptAll requestFull fullParts rfl

/-- C9: when audio is supplied, the audio part (the last payload element)
carries the file's declared content type, with the literal default
`"audio/mp4"` taken exactly when the declared type is absent or empty. -/
theorem audio_mime_defaulting (decode : Bytes → Option DecodedImage)
    (req : AnalyzeRequest) (f : UploadedFile) (parts : List PromptPart)
    (ha : req.audio = some f) (h : assemblePayload decode req = some parts) :
    parts.getLast? = some (.audio (pyOrStr f.content_type "audio/mp4") f.bytes) ∧
    (f.content_type = none ∨ f.content_type = some "" →
      pyOrStr f.content_type "audio/mp4" = "audio/mp4") ∧
    (∀ c, f.content_type = some c → c ≠ "" →
      pyOrStr f.content_type "audio/mp4" = c) := by
  refine ⟨?_, ?_, ?_⟩
  · rcases req with ⟨text, image, audio, location, language_code⟩
    subst ha
    cases image with
    | none =>
      simp [assemblePayload] at h
      subst h
      rfl
    | some ifile =>
      cases hdec : decode ifile.bytes with
      | none => simp [assemblePayload, hdec] at h
      | some img =>
        simp [assemblePayload, hdec] at h
        subst h
        rfl
  · rintro (hc | hc) <;> simp [pyOrStr, hc]
  · intro c hc hne; simp [pyOrStr, hc, hne]

/-- Witness for `audio_mime_defaulting`: audio-only request with no
declared content type, whose payload ends in an `"audio/mp4"` part. -/
theorem audio_mime_defaulting_witness :
    audioOnlyParts.getLast? =
      some (.audio (pyOrStr audioFileNoType.content_type "audio/mp4")
        audioFileNoType.bytes) ∧
    (audioFileNoType.content_type = none ∨ audioFileNoType.content_type = some "" →
      pyOrStr audioFileNoType.content_type "audio/mp4" = "audio/mp4") ∧
    (∀ c, audioFileNoType.content_type = some c → c ≠ "" →
      pyOrStr audioFileNoType.content_type "audio/mp4" = c) :=
  audio_mime_defaulting decodeAcceptAll requestAudioOnly audioFileNoType
    audioOnlyParts rfl rfl

/-- The language code occurs verbatim in every assembled prompt. -/
theorem buildPrompt_has_langCode (loc : Option String) (lc : String)
    (txt : Option String) : containsSub (buildPrompt loc lc txt) lc :=
  ⟨promptSeg1 ++ pyOrStr loc "Unknown India Location" ++ promptSeg2,
    promptSeg3 ++ pyOrStr txt "Analyze my input." ++ promptSeg4,
    by simp [buildPrompt, strAppendAssoc]⟩

/-- The substituted user-text value occurs verbatim in every assembled
prompt. -/
theorem buildPrompt_has_userText (loc : Option String) (lc : String)
    (txt : Option String) :
    containsSub (buildPrompt loc lc txt) (pyOrStr txt "Analyze my input.") :=
  ⟨promptSeg1 ++ pyOrStr loc "Unknown India Location" ++ promptSeg2 ++ lc ++
    promptSeg3, promptSeg4, by simp [buildPrompt, strAppendAssoc]⟩

/-- The substituted location value occurs verbatim in every assembled
prompt. -/
theorem buildPrompt_has_location (loc : Option String) (lc : String)
    (txt : Option String) :
    containsSub (buildPrompt loc lc txt) (pyOrStr loc "Unknown India Location") :=
  ⟨promptSeg1, promptSeg2 ++ lc ++ promptSeg3 ++ pyOrStr txt "Analyze my input." ++
    promptSeg4, by simp [buildPrompt, strAppendAssoc]⟩

/-- C6: the assembled prompt contains the supplied text verbatim (the
fallback instruction when text is absent), the supplied location verbatim
when non-empty (the literal fallback `"Unknown India Location"` when
absent or empty), and the language code verbatim. -/
theorem prompt_contains_inputs (loc : Option String) (lc : String)
    (txt : Option String) :
    ((∀ t, txt = some t → containsSub (buildPrompt loc lc txt) t) ∧
      (txt = none → containsSub (buildPrompt loc lc txt) "Analyze my input.")) ∧
    ((∀ l, loc = some l → l ≠ "" → containsSub (buildPrompt loc lc txt) l) ∧
      (loc = none ∨ loc = some "" →
        containsSub (buildPrompt loc lc txt) "Unknown India Location")) ∧
    containsSub (buildPrompt loc lc txt) lc := by
  refine ⟨⟨?_, ?_⟩, ⟨?_, ?_⟩, buildPrompt_has_langCode loc lc txt⟩
  · intro t ht
    subst ht
    by_cases he : t = ""
    · subst he; exact containsSub_empty _
    · simpa [pyOrStr, he] using buildPrompt_has_userText loc lc (some t)
  · intro ht
    subst ht
    simpa [pyOrStr] using buildPrompt_has_userText loc lc none
  · intro l hl hne
    subst hl
    simpa [pyOrStr, hne] using buildPrompt_has_location (some l) lc txt
  · rintro (hl | hl) <;> subst hl
    · simpa [pyOrStr] using buildPrompt_has_location none lc txt
    · simpa [pyOrStr] using buildPrompt_has_location (some "") lc txt

/-- Witness for `prompt_contains_inputs` at concrete inputs. -/
theorem prompt_contains_inputs_witness :
    containsSub (buildPrompt (some "New Delhi") "en" (some "auto fare")) "auto fare" ∧
    containsSub (buildPrompt (some "New Delhi") "en" (some "auto fare")) "New Delhi" ∧
    containsSub (buildPrompt (some "New Delhi") "en" (some "auto fare")) "en" ∧
    containsSub (buildPrompt none "en" none) "Analyze my input." ∧
    containsSub (buildPrompt none "en" none) "Unknown India Location" :=
  ⟨(prompt_contains_inputs (some "New Delhi") "en" (some "auto fare")).1.1
      "auto fare" rfl,
    (prompt_contains_inputs (some "New Delhi") "en" (some "auto fare")).2.1.1
      "New Delhi" rfl (by decide),
    (prompt_contains_inputs (some "New Delhi") "en" (some "auto fare")).2.2,
    (prompt_contains_inputs none "en" none).1.2 rfl,
    (prompt_contains_inputs none "en" none).2.1.2 (Or.inl rfl)⟩
